import Mathlib

/-!
Verification of the kwant.ai-api-automation scripts.

This file shallowly embeds the reusable core of the repository's CI scripts:

* the bounded rolling-history store (`cleanAllureResults`, `mergeHistory`,
  `saveCurrentRunHistory` with its pruning step), shared verbatim by
  `src/run-tests.js` and the scripts in `src/unnamed/part_000`;
* the sensitive-data redaction pass (`maskSensitiveData`,
  `sanitizeAllureResults`) of `src/unnamed/part_000`, including a faithful
  model of the JavaScript regular-expression replacement semantics the code
  relies on (leftmost non-overlapping global matching, greedy backtracking
  quantifiers, case-insensitive matching, and `String.prototype.replace`
  replacing only the first occurrence when called with a plain string);
* the success-path call order and exit-code logic of the `runTests`
  drivers, and the 10-entry trend bound of `src/generate-allure.js`.

File contents are modelled as character lists (`List Char`), a directory as a
list of (name, content) pairs, and a persisted history entry as a record of
its directory name, its filesystem modification time (a `Nat`) and its files.
-/

/-! ## History store: data model -/

/-- One retained past run inside the `.history` store: a subdirectory named by
a filesystem-safe timestamp, with a modification time and a flat list of
files (filename, content).  See `src/run-tests.js` lines 207-232. -/
structure HistoryEntry where
  name : String
  mtime : Nat
  files : List (String × String)
deriving DecidableEq

/-- Stable sort of history entries, newest (largest `mtime`) first.  Models
`readdirSync(HISTORY_DIR).map(name => ({name, time: statSync(..).mtime}))
.sort((a, b) => b.time - a.time)` from `src/run-tests.js` lines 174-176 and
224-226 (JavaScript `Array.prototype.sort` is stable). -/
def sortByTimeDesc (l : List HistoryEntry) : List HistoryEntry :=
  l.mergeSort fun a b => b.mtime ≤ a.mtime

/-- The retention/merge window: the newest `min(N,3)` persisted entries,
newest first.  Models `.sort((a,b) => b.time - a.time).slice(0, 3)` in
`mergeHistory` (`src/run-tests.js` lines 174-177). -/
def historyWindow (store : List HistoryEntry) : List HistoryEntry :=
  (sortByTimeDesc store).take 3

/-- Result of `mergeHistory` (`src/run-tests.js` lines 168-192): the fresh
`allure-results/history` directory.  The newest 3 entries are taken, reversed
to oldest-first, and every file of every selected entry is copied under the
name `${folder.name}-${file}`. -/
def mergeHistory (store : List HistoryEntry) : List (String × String) :=
  (historyWindow store).reverse.flatMap fun e =>
    e.files.map fun f => (e.name ++ "-" ++ f.1, f.2)

/-- Timestamp directory name: `new Date().toISOString().replace(/[:.]/g, '-')`
(`src/run-tests.js` line 212) — every colon and period of the ISO timestamp
becomes a dash. -/
def fsSafeTimestamp (iso : String) : String :=
  String.mk (iso.data.map fun c => if c = ':' ∨ c = '.' then '-' else c)

/-- Pruning step at the end of `saveCurrentRunHistory` (`src/run-tests.js`
lines 223-231): sort all persisted entries newest first and delete every
entry from index 3 on, so exactly the first 3 of the sorted listing remain. -/
def pruneHistory (store : List HistoryEntry) : List HistoryEntry :=
  (sortByTimeDesc store).take 3

/-- `saveCurrentRunHistory` (`src/run-tests.js` lines 208-232).
`reportHistory` is the `allure-report/history` directory produced by the
report generator: `none` when that directory does not exist (early return,
before any pruning), otherwise the list of its files.  A new entry named by
the filesystem-safe current timestamp `iso` is created with modification time
`now` holding a copy of every file, then the store is pruned to the newest 3.
The model assumes the fresh timestamp directory does not already exist (the
store receives one entry per invocation and names are millisecond
timestamps). -/
def saveCurrentRunHistory (reportHistory : Option (List (String × String)))
    (iso : String) (now : Nat) (store : List HistoryEntry) : List HistoryEntry :=
  match reportHistory with
  | none => store
  | some files =>
    pruneHistory ({ name := fsSafeTimestamp iso, mtime := now, files := files } :: store)

/-- One pipeline run as seen by the history store: what the report generator
left in `allure-report/history` (if anything), the ISO timestamp of the run,
and the modification time the new entry receives. -/
structure SnapOp where
  report : Option (List (String × String))
  iso : String
  time : Nat

/-- Folding one `SnapOp` into the store via `saveCurrentRunHistory`. -/
def snapStep (store : List HistoryEntry) (op : SnapOp) : List HistoryEntry :=
  saveCurrentRunHistory op.report op.iso op.time store

/-- The store after a sequence of runs, starting from a fresh (empty)
`.history` directory. -/
def runSnaps (ops : List SnapOp) : List HistoryEntry :=
  ops.foldl snapStep []

/-- All entries ever created by a sequence of runs, in creation order (runs
whose report had no `history` output create nothing). -/
def createdEntries (ops : List SnapOp) : List HistoryEntry :=
  ops.filterMap fun op =>
    op.report.map fun files => { name := fsSafeTimestamp op.iso, mtime := op.time, files := files }

/-- `cleanAllureResults` (`src/run-tests.js` lines 23-32): every entry of the
`allure-results` directory whose name is not `history` is removed; the
`history` entry is kept untouched. -/
def cleanAllureResults (entries : List (String × String)) : List (String × String) :=
  entries.filter fun e => e.1 == "history"

/-! ## Trend dashboard (`src/generate-allure.js` lines 26-40) -/

/-- One record of `trend.json`: the object pushed at lines 31-36 of
`src/generate-allure.js`. -/
structure TrendEntry where
  date : String
  total : Nat
  failed : Nat
  duration : Nat
deriving DecidableEq

/-- The trend update of `src/generate-allure.js` lines 31-39:
`trendData.push(entry); if (trendData.length > 10) trendData.shift();`
(`shift` removes the first, i.e. oldest, element). -/
def updateTrend (trend : List TrendEntry) (e : TrendEntry) : List TrendEntry :=
  let pushed := trend ++ [e]
  if pushed.length > 10 then pushed.tail else pushed

/-! ## Pipeline call order and exit codes -/

/-- The observable phases of one `runTests` invocation.  `mergeHistoryStep`
is the `mergeHistory()` call performed first inside `generateAllureReport`,
`allureGenerate` the subsequent `allure generate` subprocess. -/
inductive PipelineStep where
  | cleanResults
  | addExecutorInfo
  | addEnvironmentInfo
  | fetchCollection
  | newmanRun
  | sanitizeResults
  | mergeHistoryStep
  | allureGenerate
  | saveHistory
  | deploy
  | notify
deriving DecidableEq

/-- Success-path call order of `runTests` in `src/unnamed/part_000` lines
621-685 (the strict variant): clean, executor info, fetch, environment info,
Newman run, `sanitizeAllureResults()`, `generateAllureReport()` (which first
merges history), `saveCurrentRunHistory()`, deploy. -/
def sanitizedRunTrace : List PipelineStep :=
  [.cleanResults, .addExecutorInfo, .fetchCollection, .addEnvironmentInfo,
   .newmanRun, .sanitizeResults, .mergeHistoryStep, .allureGenerate,
   .saveHistory, .deploy]

/-- Success-path call order of `runTests` in `src/unnamed/part_000` lines
1157-1202 (the GitHub-Pages/Slack variant): it also calls
`sanitizeAllureResults()` before report generation, then deploys and sends
the Slack notification. -/
def slackRunTrace : List PipelineStep :=
  [.cleanResults, .addExecutorInfo, .fetchCollection, .addEnvironmentInfo,
   .newmanRun, .sanitizeResults, .mergeHistoryStep, .allureGenerate,
   .saveHistory, .deploy, .notify]

/-- Success-path call order of `runTests` in `src/run-tests.js` lines
247-281: clean, executor info, environment info, fetch, Newman run, then the
callback directly merges history, generates the report, saves history and
deploys.  No sanitize/redaction call exists in this script. -/
def basicRunTrace : List PipelineStep :=
  [.cleanResults, .addExecutorInfo, .addEnvironmentInfo, .fetchCollection,
   .newmanRun, .mergeHistoryStep, .allureGenerate, .saveHistory, .deploy]

/-- `stepBefore tr a b` holds when both steps occur in the trace and the
first occurrence of `a` precedes the first occurrence of `b`. -/
def stepBefore (tr : List PipelineStep) (a b : PipelineStep) : Bool :=
  match tr.findIdx? (· == a), tr.findIdx? (· == b) with
  | some i, some j => decide (i < j)
  | _, _ => false

/-- The ordering demanded of the redaction step: it executes (occurs in the
trace) after the runner and before the history merge, report generation,
deploy, and — when present — the notification. -/
def redactionWellPlaced (tr : List PipelineStep) : Bool :=
  stepBefore tr .newmanRun .sanitizeResults &&
  stepBefore tr .sanitizeResults .mergeHistoryStep &&
  stepBefore tr .sanitizeResults .allureGenerate &&
  stepBefore tr .sanitizeResults .deploy &&
  (!tr.contains .notify || stepBefore tr .sanitizeResults .notify)

/-- Outcome of one invocation of the strict `runTests` variant
(`src/unnamed/part_000` lines 621-698): missing environment values and fetch
errors throw and reach the `catch` block, a Newman error rejects the
`runNewman` promise and also reaches the `catch` block, otherwise the run
completes with some number of failed assertions. -/
inductive StrictOutcome where
  | configError
  | fetchError
  | runnerError
  | completed (failedAssertions : Nat)
deriving DecidableEq

/-- Exit code of the strict variant: the `catch` block exits 1 (line 683),
a completed run exits `failed > 0 ? 1 : 0` (line 678). -/
def exitCodeStrict : StrictOutcome → Nat
  | .configError => 1
  | .fetchError => 1
  | .runnerError => 1
  | .completed n => if 0 < n then 1 else 0

/-- Outcome of one invocation of the `runTests` of `src/run-tests.js` lines
247-281: missing environment values, a Newman runner error, or a completed
run. -/
inductive BasicOutcome where
  | configError
  | runnerError
  | completed (failedAssertions : Nat)
deriving DecidableEq

/-- The explicit `process.exit` call (if any) of `src/run-tests.js`:
missing configuration exits 1 (line 250); on a runner error the callback
executes `return console.error(...)` (line 265) and never reaches
`process.exit`; a completed run exits `failed > 0 ? 1 : 0` (line 280). -/
def explicitExitBasic : BasicOutcome → Option Nat
  | .configError => some 1
  | .runnerError => none
  | .completed n => some (if 0 < n then 1 else 0)

/-- The observed process exit code: a Node.js process that runs out of work
without an explicit `process.exit` call terminates with code 0. -/
def processExitBasic (o : BasicOutcome) : Nat :=
  (explicitExitBasic o).getD 0

/-! ## Redaction: a model of the JavaScript regex replacements

`maskSensitiveData` (`src/unnamed/part_000` lines 370-398) applies a fixed
list of JavaScript regular expressions with the `gi` flags to the raw file
content.  Every regex used there is a plain concatenation of
case-insensitive literals and greedy counted character-class repetitions,
with a single capture group; `RItem` represents one such element and a
pattern is a `List RItem`.  The matcher below implements exactly the JS
semantics these patterns exercise: a greedy quantifier first consumes as
many characters as allowed and backtracks one at a time until the rest of
the pattern succeeds. -/

/-- ASCII lower-casing on code points, as `String.prototype.toLowerCase`
acts on the ASCII range. -/
def lowerN (n : Nat) : Nat := if 65 ≤ n && n ≤ 90 then n + 32 else n

/-- Case-insensitive character comparison (the `i` regex flag). -/
def ciEqChar (a b : Char) : Bool := lowerN a.toNat == lowerN b.toNat

/-- Does the input (second argument) start with the literal (first
argument), case-insensitively? -/
def ciStarts : List Char → List Char → Bool
  | [], _ => true
  | _ :: _, [] => false
  | a :: as, b :: bs => ciEqChar a b && ciStarts as bs

/-- Length of the longest prefix of characters satisfying `p`. -/
def runLen (p : Char → Bool) : List Char → Nat
  | [] => 0
  | c :: cs => if p c then runLen p cs + 1 else 0

/-- One element of a regex pattern: a case-insensitive literal, or a greedy
repetition `cls p min max inGroup` of a character class (`max = none` means
unbounded); `inGroup` marks the elements inside the single capture group. -/
inductive RItem where
  | lit : List Char → RItem
  | cls : (Char → Bool) → Nat → Option Nat → Bool → RItem

/-- Greedy backtracking over a class repetition: try consuming `k`
characters, for `k` from the maximal run length down to the minimum, and
take the first count for which the rest of the pattern (`f`) matches the
remaining input.  Returns the total matched length and the capture-group
text. -/
def tryRep (f : List Char → Option (Nat × List Char)) (cs : List Char) (mn : Nat)
    (inG : Bool) : Nat → Option (Nat × List Char)
  | 0 =>
    if 0 < mn then none
    else
      match f cs with
      | some (n, g) => some (n, g)
      | none => none
  | k + 1 =>
    if k + 1 < mn then none
    else
      match f (cs.drop (k + 1)) with
      | some (n, g) => some (k + 1 + n, (if inG then cs.take (k + 1) else []) ++ g)
      | none => tryRep f cs mn inG k

/-- Match a pattern against a prefix of the input; on success return the
number of characters matched and the capture-group text. -/
def matchSeq : List RItem → List Char → Option (Nat × List Char)
  | [], _ => some (0, [])
  | RItem.lit l :: rest, cs =>
    if ciStarts l cs then
      match matchSeq rest (cs.drop l.length) with
      | some (n, g) => some (l.length + n, g)
      | none => none
    else none
  | RItem.cls p mn mx inG :: rest, cs =>
    let m := match mx with
      | none => runLen p cs
      | some b => min (runLen p cs) b
    tryRep (matchSeq rest) cs mn inG m

/-- Global replacement driver (fuel-indexed so that the recursion is
structural; the fuel is the input length and never runs out).  As in a JS
global `replace`, matching proceeds left to right, each match is replaced by
`repl match group`, scanning resumes after the matched text, and matches
never overlap.  None of the patterns used below can match the empty string;
the `len = 0` branch (skip one character) is therefore never exercised. -/
def scanAux (pat : List RItem) (repl : List Char → List Char → List Char) :
    Nat → List Char → List Char
  | _, [] => []
  | 0, cs => cs
  | fuel + 1, c :: cs =>
    match matchSeq pat (c :: cs) with
    | some (len, g) =>
      if len = 0 then c :: scanAux pat repl fuel cs
      else repl ((c :: cs).take len) g ++ scanAux pat repl fuel ((c :: cs).drop len)
    | none => c :: scanAux pat repl fuel cs

/-- `content.replace(pattern_with_g_flag, repl)`. -/
def scanReplace (pat : List RItem) (repl : List Char → List Char → List Char)
    (s : List Char) : List Char :=
  scanAux pat repl s.length s

/-- `s.replace(pat, rep)` with a plain-string first argument: replace the
first (exact, case-sensitive) occurrence of `pat` only. -/
def replaceFirst (pat rep : List Char) : List Char → List Char
  | [] => if pat.isEmpty then rep else []
  | c :: cs =>
    if pat.isPrefixOf (c :: cs) then rep ++ (c :: cs).drop pat.length
    else c :: replaceFirst pat rep cs

/-- Does `pat` occur as a contiguous substring? -/
def containsSub (pat : List Char) : List Char → Bool
  | [] => pat.isEmpty
  | c :: cs => pat.isPrefixOf (c :: cs) || containsSub pat cs

/-! ### The concrete patterns of `maskSensitiveData` -/

/-- JS `\s` on the ASCII range: space, tab, LF, VT, FF, CR. -/
def isWsChar (c : Char) : Bool :=
  c.toNat == 32 || c.toNat == 9 || c.toNat == 10 || c.toNat == 11 ||
  c.toNat == 12 || c.toNat == 13

/-- The class `["']` (double or single quote). -/
def isQuoteChar (c : Char) : Bool := c.toNat == 34 || c.toNat == 39

/-- The class `[:=]`. -/
def isColonEqChar (c : Char) : Bool := c.toNat == 58 || c.toNat == 61

/-- The literal `=` as a class (for `=*`). -/
def isEqChar (c : Char) : Bool := c.toNat == 61

/-- The class `[-_]`. -/
def isDashUscoreChar (c : Char) : Bool := c.toNat == 45 || c.toNat == 95

/-- The class `[a-zA-Z0-9]`. -/
def isAlnumChar (c : Char) : Bool :=
  (48 ≤ c.toNat && c.toNat ≤ 57) || (65 ≤ c.toNat && c.toNat ≤ 90) ||
  (97 ≤ c.toNat && c.toNat ≤ 122)

/-- The class `[a-z]` under the `i` flag: any ASCII letter. -/
def isLetterChar (c : Char) : Bool :=
  (65 ≤ c.toNat && c.toNat ≤ 90) || (97 ≤ c.toNat && c.toNat ≤ 122)

/-- The class `[a-zA-Z0-9\-._~+\/]` (token-shaped values). -/
def isTokenValChar (c : Char) : Bool :=
  isAlnumChar c || c.toNat == 45 || c.toNat == 46 || c.toNat == 95 ||
  c.toNat == 126 || c.toNat == 43 || c.toNat == 47

/-- The class `[^"'\s,}]` (password-shaped values). -/
def isPwValChar (c : Char) : Bool :=
  !(c.toNat == 34 || c.toNat == 39 || isWsChar c || c.toNat == 44 || c.toNat == 125)

/-- The class `[^"]`. -/
def isNotDqChar (c : Char) : Bool := !(c.toNat == 34)

/-- `/["']?api[-_]?key["']?\s*[:=]\s*["']?([a-zA-Z0-9]{32,40})["']?/gi`
(`src/unnamed/part_000` line 376). -/
def apiKeyPattern : List RItem :=
  [RItem.cls isQuoteChar 0 (some 1) false,
   RItem.lit "api".data,
   RItem.cls isDashUscoreChar 0 (some 1) false,
   RItem.lit "key".data,
   RItem.cls isQuoteChar 0 (some 1) false,
   RItem.cls isWsChar 0 none false,
   RItem.cls isColonEqChar 1 (some 1) false,
   RItem.cls isWsChar 0 none false,
   RItem.cls isQuoteChar 0 (some 1) false,
   RItem.cls isAlnumChar 32 (some 40) true,
   RItem.cls isQuoteChar 0 (some 1) false]

/-- `/["']?authorization["']?\s*[:=]\s*["']?Bearer\s+([a-zA-Z0-9\-._~+\/]+=*)["']?/gi`
(`src/unnamed/part_000` line 378). -/
def bearerPattern : List RItem :=
  [RItem.cls isQuoteChar 0 (some 1) false,
   RItem.lit "authorization".data,
   RItem.cls isQuoteChar 0 (some 1) false,
   RItem.cls isWsChar 0 none false,
   RItem.cls isColonEqChar 1 (some 1) false,
   RItem.cls isWsChar 0 none false,
   RItem.cls isQuoteChar 0 (some 1) false,
   RItem.lit "Bearer".data,
   RItem.cls isWsChar 1 none false,
   RItem.cls isTokenValChar 1 none true,
   RItem.cls isEqChar 0 none true,
   RItem.cls isQuoteChar 0 (some 1) false]

/-- `/["']?[a-z]*token["']?\s*[:=]\s*["']?([a-zA-Z0-9\-._~+\/]{20,})["']?/gi`
(`src/unnamed/part_000` line 380). -/
def tokenPattern : List RItem :=
  [RItem.cls isQuoteChar 0 (some 1) false,
   RItem.cls isLetterChar 0 none false,
   RItem.lit "token".data,
   RItem.cls isQuoteChar 0 (some 1) false,
   RItem.cls isWsChar 0 none false,
   RItem.cls isColonEqChar 1 (some 1) false,
   RItem.cls isWsChar 0 none false,
   RItem.cls isQuoteChar 0 (some 1) false,
   RItem.cls isTokenValChar 20 none true,
   RItem.cls isQuoteChar 0 (some 1) false]

/-- `/["']?password["']?\s*[:=]\s*["']?([^"'\s,}]{3,})["']?/gi`
(`src/unnamed/part_000` line 382). -/
def passwordPattern : List RItem :=
  [RItem.cls isQuoteChar 0 (some 1) false,
   RItem.lit "password".data,
   RItem.cls isQuoteChar 0 (some 1) false,
   RItem.cls isWsChar 0 none false,
   RItem.cls isColonEqChar 1 (some 1) false,
   RItem.cls isWsChar 0 none false,
   RItem.cls isQuoteChar 0 (some 1) false,
   RItem.cls isPwValChar 3 none true,
   RItem.cls isQuoteChar 0 (some 1) false]

/-- `new RegExp(`"${pattern}"\\s*:\\s*"([^"]*)"`, 'gi')` built for each
sensitive key name (`src/unnamed/part_000` line 393). -/
def headerPattern (k : List Char) : List RItem :=
  [RItem.lit ("\"".data ++ k ++ "\"".data),
   RItem.cls isWsChar 0 none false,
   RItem.lit ":".data,
   RItem.cls isWsChar 0 none false,
   RItem.lit "\"".data,
   RItem.cls isNotDqChar 0 none true,
   RItem.lit "\"".data]

/-- The fixed redaction marker substituted for sensitive values. -/
def MARKER : String := "***REDACTED***"

/-- The replacer of the four generic patterns (`src/unnamed/part_000` lines
385-389): `match.replace(group1, '***REDACTED***')` — a plain-string
`replace`, so only the first occurrence of the captured text inside the
matched text is substituted. -/
def groupRedact (m g : List Char) : List Char := replaceFirst g MARKER.data m

/-- The replacement string `"${pattern}": "***REDACTED***"` used for the
per-key header regexes (`src/unnamed/part_000` line 394). -/
def headerReplacement (k : List Char) : List Char :=
  "\"".data ++ k ++ "\": \"***REDACTED***\"".data

/-- `SENSITIVE_PATTERNS` (`src/unnamed/part_000` lines 291-304), in source
order. -/
def SENSITIVE_PATTERNS : List String :=
  ["api-key", "authorization", "x-api-key", "postman-token", "cookie",
   "set-cookie", "x-auth-token", "bearer", "password", "secret", "token", "auth"]

/-- `maskSensitiveData` on raw content (`src/unnamed/part_000` lines
370-398): first the four generic patterns, each applied globally with the
first-occurrence group replacer, then one global replacement per sensitive
key name with the fixed `"key": "***REDACTED***"` replacement string. -/
def maskChars (content : List Char) : List Char :=
  let afterGeneric :=
    [apiKeyPattern, bearerPattern, tokenPattern, passwordPattern].foldl
      (fun acc pat => scanReplace pat groupRedact acc) content
  SENSITIVE_PATTERNS.foldl
    (fun acc k =>
      scanReplace (headerPattern k.data) (fun _ _ => headerReplacement k.data) acc)
    afterGeneric

/-- `maskSensitiveData` as a `String` transformation. -/
def maskSensitiveData (content : String) : String :=
  String.mk (maskChars content.data)

/-- ASCII `String.prototype.toLowerCase`. -/
def lowerStr (s : String) : String :=
  String.mk (s.data.map fun c => Char.ofNat (lowerN c.toNat))

/-- `isSensitiveField` (`src/unnamed/part_000` lines 363-367): the
lower-cased field name contains some entry of `SENSITIVE_PATTERNS` as a
substring. -/
def isSensitiveField (fieldName : String) : Bool :=
  SENSITIVE_PATTERNS.any fun pat => containsSub pat.data (lowerStr fieldName).data

/-- `/"key":\s*"[^"]+"/gi` as used by the simpler `sanitizeAllureResults`
(`src/unnamed/part_000` lines 928-932): key literal immediately followed by
`":`, optional whitespace, then a non-empty quoted value; no capture group
is needed since the replacement is a fixed string. -/
def sanitizeKeyPattern (k : List Char) : List RItem :=
  [RItem.lit ("\"".data ++ k ++ "\":".data),
   RItem.cls isWsChar 0 none false,
   RItem.lit "\"".data,
   RItem.cls isNotDqChar 1 none false,
   RItem.lit "\"".data]

/-- The five keys redacted by the simpler `sanitizeAllureResults`
(`src/unnamed/part_000` lines 928-932), in source order. -/
def SANITIZE_KEYS : List String :=
  ["api-key", "authorization", "postman-token", "x-api-key", "cookie"]

/-- The per-file content transformation of the simpler
`sanitizeAllureResults` (`src/unnamed/part_000` lines 921-940): the five
fixed-key replacements applied in sequence. -/
def sanitizeFileContent (content : String) : String :=
  String.mk <|
    SANITIZE_KEYS.foldl
      (fun acc k =>
        scanReplace (sanitizeKeyPattern k.data) (fun _ _ => headerReplacement k.data) acc)
      content.data

/-! ## Concrete fixtures -/

set_option maxRecDepth 100000

/-- Fixture for the redaction claims: an authorization header carrying a
bearer token. -/
def fixtureAuth : String := "\"authorization\": \"Bearer abc123SECRETxyz789\""

/-- The secret value inside `fixtureAuth`. -/
def secretAuth : String := "abc123SECRETxyz789"

/-- Fixture with an unrelated numeric field whose key name contains the
substring `token`. -/
def fixtureTokenCount : String := "\"token_count\": 42"

/-- A chained token assignment `ktoken=v1=v2` where the key equals the first
value: the generic token regex matches the whole of `ktoken=v1`, the
replacer `match.replace(group1, marker)` replaces the first occurrence of
the captured value — which is the key — and the global scan resumes after
the match, so `v1=v2` survives the first pass and is rewritten again by the
second pass. -/
def chainedTokenInput : String :=
  "aaaaaaaaaaaaaaaaaaaatoken=aaaaaaaaaaaaaaaaaaaatoken=bbbbbbbbbbbbbbbbbbbbbbbb"

/-! ## Shared facts about the history sort -/

theorem sortByTimeDesc_perm (l : List HistoryEntry) : (sortByTimeDesc l).Perm l :=
  List.mergeSort_perm l _

theorem sortByTimeDesc_pairwise (l : List HistoryEntry) :
    (sortByTimeDesc l).Pairwise fun a b => b.mtime ≤ a.mtime := by
  have h := @List.sorted_mergeSort HistoryEntry
    (fun a b => decide (b.mtime ≤ a.mtime))
    (fun a b c hab hbc => by
      simp only [decide_eq_true_eq] at *; omega)
    (fun a b => by
      simp only [Bool.or_eq_true, decide_eq_true_eq]; omega) l
  exact h.imp fun hab => by simpa using hab

theorem sortByTimeDesc_of_sorted {l : List HistoryEntry}
    (h : l.Pairwise fun a b => b.mtime ≤ a.mtime) : sortByTimeDesc l = l := by
  apply List.mergeSort_of_sorted
  exact h.imp fun hab => by simpa using hab

theorem historyWindow_subset {store : List HistoryEntry} {e : HistoryEntry}
    (he : e ∈ historyWindow store) : e ∈ store :=
  (sortByTimeDesc_perm store).mem_iff.mp ((List.take_sublist 3 _).subset he)


theorem sortByTimeDesc_cons_max {x : HistoryEntry} {l : List HistoryEntry}
    (h : ∀ e ∈ l, e.mtime < x.mtime) :
    ∃ t, sortByTimeDesc (x :: l) = x :: t ∧ t.Perm l := by
  have hperm := sortByTimeDesc_perm (x :: l)
  have hpw := sortByTimeDesc_pairwise (x :: l)
  obtain ⟨h0, t, hs⟩ : ∃ h0 t, sortByTimeDesc (x :: l) = h0 :: t := by
    cases hsort : sortByTimeDesc (x :: l) with
    | nil => exact absurd (hsort ▸ hperm) (by simp)
    | cons h0 t => exact ⟨h0, t, rfl⟩
  rw [hs] at hperm hpw
  have hpc := List.pairwise_cons.mp hpw
  have hx : x ∈ h0 :: t := hperm.mem_iff.mpr (List.mem_cons_self x l)
  have hh0 : h0 ∈ x :: l := hperm.mem_iff.mp (List.mem_cons_self h0 t)
  have hh0x : h0 = x := by
    rcases List.mem_cons.mp hh0 with heq | hmem
    · exact heq
    · exfalso
      rcases List.mem_cons.mp hx with hxe | hxt
      · exact absurd (hxe ▸ h h0 hmem) (lt_irrefl _)
      · exact absurd (lt_of_le_of_lt (hpc.1 x hxt) (h h0 hmem)) (lt_irrefl _)
  subst hh0x
  exact ⟨t, hs, hperm.cons_inv⟩

/-! ## Claim theorems: redaction fixtures, ordering, exit codes -/

/-- C3: redacting the fixture containing `"authorization": "Bearer
abc123SECRETxyz789"` — with either redactor, `maskSensitiveData` or the
per-key `sanitizeAllureResults` replacements — yields content that contains
the redaction marker and no remaining occurrence of the original secret
value (which the fixture did contain). -/
theorem c3_redaction_removes_secret :
    containsSub secretAuth.data fixtureAuth.data = true ∧
    containsSub MARKER.data (maskSensitiveData fixtureAuth).data = true ∧
    containsSub secretAuth.data (maskSensitiveData fixtureAuth).data = false ∧
    containsSub MARKER.data (sanitizeFileContent fixtureAuth).data = true ∧
    containsSub secretAuth.data (sanitizeFileContent fixtureAuth).data = false := by
  decide

/-- C4: the redactor is not idempotent.  On the chained token assignment
`chainedTokenInput`, the first pass rewrites only the key (the captured
value's first occurrence inside the match), leaves the trailing `=value`
intact, and the second pass rewrites the surviving value again — second
output differs from the first.  The marker itself, in isolation, never
triggers a substitution. -/
theorem c4_redaction_not_idempotent :
    maskSensitiveData (maskSensitiveData chainedTokenInput) ≠
      maskSensitiveData chainedTokenInput ∧
    maskSensitiveData MARKER = MARKER := by
  constructor
  · decide
  · decide

/-- C5 counterexample: the `runTests` of `src/run-tests.js` lines 247-281
contains no redaction step at all, so on its runs the redaction step does
not execute between the runner and the merge/report/deploy phases. -/
theorem c5_redaction_order_refuted :
    redactionWellPlaced basicRunTrace = false ∧
    PipelineStep.sanitizeResults ∉ basicRunTrace := by
  decide

/-- C5 (amended): in the two scripts that define a redaction step
(`src/unnamed/part_000` lines 621-685 and lines 1157-1202), the redaction
step executes after the runner has populated the artifact set and before
the history merge, report generation, deploy, and any notification; the
`src/run-tests.js` variants perform no redaction. -/
theorem c5_redaction_order_amended :
    redactionWellPlaced sanitizedRunTrace = true ∧
    redactionWellPlaced slackRunTrace = true ∧
    redactionWellPlaced basicRunTrace = false := by
  decide

/-- C6 counterexample: in the `runTests` of `src/run-tests.js`, a Newman
runner failure makes the callback return without calling `process.exit`, so
the process terminates with exit code 0, not 1. -/
theorem c6_exit_code_refuted :
    processExitBasic BasicOutcome.runnerError = 0 ∧
    processExitBasic BasicOutcome.runnerError ≠ 1 := by
  decide

/-- C6 (amended): in the strict variant (`src/unnamed/part_000` lines
621-698) the exit code is 0 exactly on a completed run with zero failed
assertions and 1 in every other case (configuration, fetch and runner
errors included); but in `src/run-tests.js` a runner error produces no
explicit exit call and the process exits 0. -/
theorem c6_exit_code_amended :
    (∀ o : StrictOutcome, exitCodeStrict o = 0 ↔ o = StrictOutcome.completed 0) ∧
    (∀ o : StrictOutcome, exitCodeStrict o = 0 ∨ exitCodeStrict o = 1) ∧
    explicitExitBasic BasicOutcome.runnerError = none ∧
    processExitBasic BasicOutcome.runnerError = 0 := by
  refine ⟨fun o => ?_, fun o => ?_, rfl, rfl⟩
  · cases o with
    | completed n =>
      cases n with
      | zero => simp [exitCodeStrict]
      | succ m => simp [exitCodeStrict]
    | configError => simp [exitCodeStrict]
    | fetchError => simp [exitCodeStrict]
    | runnerError => simp [exitCodeStrict]
  · cases o with
    | completed n =>
      by_cases hn : 0 < n
      · right; simp [exitCodeStrict, hn]
      · left; simp [exitCodeStrict, hn]
    | configError => right; rfl
    | fetchError => right; rfl
    | runnerError => right; rfl

/-- C7: the field `"token_count": 42` is matched by the substring-based
key-name matcher `isSensitiveField`, yet neither redactor alters the
content — the numeric, non-secret value is not corrupted. -/
theorem c7_token_count_unchanged :
    isSensitiveField "token_count" = true ∧
    maskSensitiveData fixtureTokenCount = fixtureTokenCount ∧
    sanitizeFileContent fixtureTokenCount = fixtureTokenCount := by
  decide

/-- C9: `cleanAllureResults` keeps exactly the entries of the artifact
directory named `history`, with their contents untouched, and removes every
other entry. -/
theorem c9_clean_preserves_history (entries : List (String × String))
    (e : String × String) :
    e ∈ cleanAllureResults entries ↔ e ∈ entries ∧ e.1 = "history" := by
  simp [cleanAllureResults, List.mem_filter]

/-- C10: the trend update keeps at most 10 entries when starting from at
most 10, the pushed entry becomes the last element, nothing is removed while
the bound is not exceeded, and when it would be exceeded exactly the first
(oldest) stored entry is dropped. -/
theorem c10_trend_bound (trend : List TrendEntry) (e : TrendEntry)
    (h : trend.length ≤ 10) :
    (updateTrend trend e).length ≤ 10 ∧
    (updateTrend trend e).getLast? = some e ∧
    (trend.length < 10 → updateTrend trend e = trend ++ [e]) ∧
    (trend.length = 10 → updateTrend trend e = trend.tail ++ [e]) := by
  by_cases h10 : trend.length = 10
  · have hne : trend ≠ [] := by
      intro hnil; rw [hnil] at h10; simp at h10
    have hgt : (trend ++ [e]).length > 10 := by
      simp [List.length_append, h10]
    have hupd : updateTrend trend e = trend.tail ++ [e] := by
      simp only [updateTrend, hgt, if_pos]
      exact List.tail_append_of_ne_nil hne
    refine ⟨?_, ?_, ?_, fun _ => hupd⟩
    · rw [hupd]
      simp [List.length_append, List.length_tail, h10]
    · rw [hupd, List.getLast?_concat]
    · intro hlt; omega
  · have hlt : trend.length < 10 := lt_of_le_of_ne h h10
    have hngt : ¬(trend ++ [e]).length > 10 := by
      simp [List.length_append]; omega
    have hupd : updateTrend trend e = trend ++ [e] := by
      simp only [updateTrend, hngt, if_neg, not_false_iff]
    refine ⟨?_, ?_, fun _ => hupd, fun heq => absurd heq h10⟩
    · rw [hupd]; simp [List.length_append]; omega
    · rw [hupd, List.getLast?_concat]

/-- C8: `saveCurrentRunHistory` is a no-op when the generated report has no
`history` directory; otherwise it creates exactly one new persisted entry —
named by the filesystem-safe current timestamp, with the full copy of the
report's history files — and every other surviving entry was already in the
store.  The last conjunct exhibits the colon/period replacement on a real
ISO timestamp. -/
theorem c8_snapshot_behavior (store : List HistoryEntry)
    (files : List (String × String)) (iso : String) (now : Nat)
    (h : ∀ e ∈ store, e.mtime < now) :
    saveCurrentRunHistory none iso now store = store ∧
    ({ name := fsSafeTimestamp iso, mtime := now, files := files } : HistoryEntry) ∉ store ∧
    ({ name := fsSafeTimestamp iso, mtime := now, files := files } : HistoryEntry) ∈
      saveCurrentRunHistory (some files) iso now store ∧
    (∀ e ∈ saveCurrentRunHistory (some files) iso now store,
      e = ({ name := fsSafeTimestamp iso, mtime := now, files := files } : HistoryEntry) ∨
        e ∈ store) ∧
    fsSafeTimestamp "2025-01-02T03:04:05.678Z" = "2025-01-02T03-04-05-678Z" := by
  set new : HistoryEntry := { name := fsSafeTimestamp iso, mtime := now, files := files } with hnew
  obtain ⟨t, hsort, hperm⟩ := @sortByTimeDesc_cons_max new store h
  have hsave : saveCurrentRunHistory (some files) iso now store = new :: t.take 2 := by
    show pruneHistory (new :: store) = new :: t.take 2
    unfold pruneHistory
    rw [hsort, List.take_succ_cons]
  refine ⟨rfl, ?_, ?_, ?_, by decide⟩
  · intro hmem
    exact absurd (h new hmem) (lt_irrefl now)
  · rw [hsave]; exact List.mem_cons_self _ _
  · intro e he
    rw [hsave] at he
    rcases List.mem_cons.mp he with heq | hmem
    · exact Or.inl heq
    · exact Or.inr (hperm.mem_iff.mp ((List.take_sublist 2 t).subset hmem))

/-- Injectivity of the `${folder.name}-${file}` renaming for identifiers of
equal length: equal renamed keys force equal identifiers and equal file
names. -/
theorem nameKey_inj {n1 n2 f1 f2 : String} (hl : n1.length = n2.length)
    (h : n1 ++ "-" ++ f1 = n2 ++ "-" ++ f2) : n1 = n2 ∧ f1 = f2 := by
  have hd : n1.data ++ ("-".data ++ f1.data) = n2.data ++ ("-".data ++ f2.data) := by
    have hdata := congrArg String.data h
    simpa [String.data_append, List.append_assoc] using hdata
  have hlen : n1.data.length = n2.data.length := hl
  obtain ⟨h1, h2⟩ := List.append_inj hd hlen
  refine ⟨String.ext h1, String.ext ?_⟩
  injection h2

/-- C2: for a store of timestamp-identified entries (pairwise distinct
identifiers of a common length, duplicate-free file names within each
entry), the merged `history` directory contains exactly the union of the
files of the newest `min(N,3)` entries under their prefixed names, with no
filename collisions; the selected window consists of `min(N,3)` entries each
at least as recent as every entry left out; and an empty store merges to an
empty directory without error. -/
theorem c2_merge_window_union (store : List HistoryEntry) (L : Nat)
    (hnames : (store.map HistoryEntry.name).Nodup)
    (hlen : ∀ e ∈ store, e.name.length = L)
    (hfiles : ∀ e ∈ store, (e.files.map Prod.fst).Nodup) :
    ((mergeHistory store).map Prod.fst).Nodup ∧
    (∀ k v, (k, v) ∈ mergeHistory store ↔
      ∃ e ∈ historyWindow store, ∃ fn, (fn, v) ∈ e.files ∧ k = e.name ++ "-" ++ fn) ∧
    (historyWindow store).length = min 3 store.length ∧
    (∀ e ∈ historyWindow store, ∀ e2 ∈ store, e2 ∉ historyWindow store →
      e2.mtime ≤ e.mtime) ∧
    mergeHistory ([] : List HistoryEntry) = [] := by
  have hempty : mergeHistory ([] : List HistoryEntry) = [] := by
    simp [mergeHistory, historyWindow, sortByTimeDesc]
  have hsorted_names : ((sortByTimeDesc store).map HistoryEntry.name).Nodup :=
    (((sortByTimeDesc_perm store).map HistoryEntry.name).nodup_iff).mpr hnames
  have hwin_names : ((historyWindow store).map HistoryEntry.name).Nodup := by
    rw [historyWindow, List.map_take]
    exact List.Nodup.sublist (List.take_sublist 3 _) hsorted_names
  have hrev_names : (((historyWindow store).reverse).map HistoryEntry.name).Nodup := by
    rw [List.map_reverse, List.nodup_reverse]
    exact hwin_names
  refine ⟨?_, ?_, ?_, ?_, hempty⟩
  · rw [mergeHistory, List.map_flatMap]
    simp only [List.map_map]
    rw [List.nodup_flatMap]
    constructor
    · intro e he
      have he' : e ∈ store := historyWindow_subset (List.mem_reverse.mp he)
      have hcomp : (Prod.fst ∘ fun f : String × String => (e.name ++ "-" ++ f.1, f.2)) =
          (fun s => e.name ++ "-" ++ s) ∘ Prod.fst := rfl
      rw [hcomp, ← List.map_map]
      refine List.Nodup.map ?_ (hfiles e he')
      intro a b hab
      exact (nameKey_inj rfl hab).2
    · have hpwne : ((historyWindow store).reverse).Pairwise
          (fun a b => a.name ≠ b.name) := List.pairwise_map.mp hrev_names
      refine List.Pairwise.imp_of_mem ?_ hpwne
      intro a b ha hb hne k hk1 hk2
      have ha' : a ∈ store := historyWindow_subset (List.mem_reverse.mp ha)
      have hb' : b ∈ store := historyWindow_subset (List.mem_reverse.mp hb)
      obtain ⟨f1, _, h1⟩ := List.mem_map.mp hk1
      obtain ⟨f2, _, h2⟩ := List.mem_map.mp hk2
      have heqk : a.name ++ "-" ++ f1.1 = b.name ++ "-" ++ f2.1 := by
        have e1 : a.name ++ "-" ++ f1.1 = k := by simpa using h1
        have e2 : b.name ++ "-" ++ f2.1 = k := by simpa using h2
        rw [e1, e2]
      exact hne (nameKey_inj ((hlen a ha').trans (hlen b hb').symm) heqk).1
  · intro k v
    rw [mergeHistory]
    simp only [List.mem_flatMap, List.mem_reverse, List.mem_map]
    constructor
    · rintro ⟨e, he, f, hf, heq⟩
      have hk : e.name ++ "-" ++ f.1 = k := congrArg Prod.fst heq
      have hv : f.2 = v := congrArg Prod.snd heq
      exact ⟨e, he, f.1, by rw [← hv]; exact hf, hk.symm⟩
    · rintro ⟨e, he, fn, hfn, hk⟩
      exact ⟨e, he, (fn, v), hfn, by rw [hk]⟩
  · rw [historyWindow, List.length_take, (sortByTimeDesc_perm store).length_eq]
  · intro e he e2 he2 hne
    have hsplit : historyWindow store ++ (sortByTimeDesc store).drop 3 =
        sortByTimeDesc store := List.take_append_drop 3 _
    have hpw := sortByTimeDesc_pairwise store
    rw [← hsplit] at hpw
    obtain ⟨-, -, hcross⟩ := List.pairwise_append.mp hpw
    have he2' : e2 ∈ sortByTimeDesc store := (sortByTimeDesc_perm store).mem_iff.mpr he2
    rw [← hsplit] at he2'
    rcases List.mem_append.mp he2' with h1 | h2
    · exact absurd h1 hne
    · exact hcross e he e2 h2

theorem createdTimes_sublist (l : List SnapOp) :
    ((createdEntries l).map HistoryEntry.mtime).Sublist (l.map SnapOp.time) := by
  induction l with
  | nil => simp [createdEntries]
  | cons op l ih =>
    cases hr : op.report with
    | none =>
      rw [createdEntries, List.filterMap_cons, hr]
      simp only [Option.map_none', List.map_cons]
      exact ih.trans (List.sublist_cons_self _ _)
    | some files =>
      rw [createdEntries, List.filterMap_cons, hr]
      simp only [Option.map_some', List.map_cons]
      exact List.Sublist.cons₂ _ ih

theorem prune_cons_of_sorted {x : HistoryEntry} {st : List HistoryEntry}
    (hsorted : st.Pairwise fun a b => b.mtime ≤ a.mtime)
    (hmax : ∀ e ∈ st, e.mtime ≤ x.mtime) :
    pruneHistory (x :: st) = x :: st.take 2 := by
  rw [pruneHistory, sortByTimeDesc_of_sorted (List.pairwise_cons.mpr ⟨hmax, hsorted⟩),
    List.take_succ_cons]

theorem runSnaps_eq (ops : List SnapOp)
    (h : (ops.map SnapOp.time).Pairwise (· < ·)) :
    runSnaps ops = ((createdEntries ops).reverse).take 3 := by
  induction ops using List.reverseRecOn with
  | nil => simp [runSnaps, createdEntries]
  | append_singleton l op ih =>
    rw [List.map_append] at h
    obtain ⟨hl, -, hlt⟩ := List.pairwise_append.mp h
    have hruns : runSnaps (l ++ [op]) = snapStep (runSnaps l) op := by
      simp [runSnaps, List.foldl_append]
    rw [hruns, ih hl]
    have hCtime : ∀ e ∈ createdEntries l, e.mtime < op.time := by
      intro e he
      have hm : e.mtime ∈ (createdEntries l).map HistoryEntry.mtime :=
        List.mem_map_of_mem _ he
      have hm2 : e.mtime ∈ l.map SnapOp.time := (createdTimes_sublist l).subset hm
      exact hlt _ hm2 _ (by simp)
    have hCpw : (createdEntries l).Pairwise (fun a b => a.mtime < b.mtime) :=
      List.pairwise_map.mp (List.Pairwise.sublist (createdTimes_sublist l) hl)
    have hstpw : ((createdEntries l).reverse.take 3).Pairwise
        (fun a b => b.mtime ≤ a.mtime) := by
      have hrev : (createdEntries l).reverse.Pairwise (fun a b => b.mtime < a.mtime) :=
        List.pairwise_reverse.mpr hCpw
      exact (List.Pairwise.sublist (List.take_sublist 3 _) hrev).imp le_of_lt
    have hstlt : ∀ e ∈ (createdEntries l).reverse.take 3, e.mtime < op.time :=
      fun e he =>
        hCtime e (List.mem_reverse.mp ((List.take_sublist 3 _).subset he))
    cases hr : op.report with
    | none =>
      have hCeq : createdEntries (l ++ [op]) = createdEntries l := by
        simp [createdEntries, List.filterMap_append, List.filterMap_cons, hr]
      rw [hCeq]
      show saveCurrentRunHistory op.report op.iso op.time _ = _
      rw [hr]
      rfl
    | some files =>
      have hCapp : createdEntries (l ++ [op]) =
          createdEntries l ++
            [{ name := fsSafeTimestamp op.iso, mtime := op.time, files := files }] := by
        simp [createdEntries, List.filterMap_append, List.filterMap_cons, hr]
      have hsave : snapStep ((createdEntries l).reverse.take 3) op =
          { name := fsSafeTimestamp op.iso, mtime := op.time, files := files } ::
            ((createdEntries l).reverse.take 3).take 2 := by
        show saveCurrentRunHistory op.report op.iso op.time _ = _
        rw [hr]
        exact prune_cons_of_sorted hstpw (fun e he => le_of_lt (hstlt e he))
      rw [hsave, hCapp, List.reverse_concat, List.take_succ_cons, List.take_take]
      norm_num

/-- C1: starting from a fresh store, after every `saveCurrentRunHistory`
call of any sequence of runs with increasing clock times, the store holds at
most 3 entries, and the entries retained are exactly the most recently
created ones (newest first). -/
theorem c1_history_window_bounded (ops : List SnapOp)
    (h : (ops.map SnapOp.time).Pairwise (· < ·)) :
    ∀ n, (runSnaps (ops.take n)).length ≤ 3 ∧
      runSnaps (ops.take n) = ((createdEntries (ops.take n)).reverse).take 3 := by
  intro n
  have hsub : ((ops.take n).map SnapOp.time).Sublist (ops.map SnapOp.time) := by
    rw [List.map_take]
    exact List.take_sublist n _
  have heq := runSnaps_eq (ops.take n) (List.Pairwise.sublist hsub h)
  refine ⟨?_, heq⟩
  rw [heq, List.length_take]
  omega

/-! ## Witness instances -/

/-- Four consecutive runs, each of which produced report history output. -/
def snapOps4 : List SnapOp :=
  [{ report := some [("history-trend.json", "a")], iso := "2025-01-01T00:00:00.001Z", time := 1 },
   { report := some [("history-trend.json", "b")], iso := "2025-01-01T00:00:00.002Z", time := 2 },
   { report := some [("history-trend.json", "c")], iso := "2025-01-01T00:00:00.003Z", time := 3 },
   { report := some [("history-trend.json", "d")], iso := "2025-01-01T00:00:00.004Z", time := 4 }]

theorem c1_history_window_bounded_witness :
    (runSnaps (snapOps4.take 4)).length ≤ 3 ∧
    runSnaps (snapOps4.take 4) = ((createdEntries (snapOps4.take 4)).reverse).take 3 :=
  c1_history_window_bounded snapOps4 (by decide) 4

/-- A two-entry store with timestamp-shaped identifiers. -/
def storeTwo : List HistoryEntry :=
  [{ name := "2025-01-01T00-00-00-001Z", mtime := 1,
     files := [("history.json", "h1"), ("history-trend.json", "t1")] },
   { name := "2025-01-01T00-00-00-002Z", mtime := 2,
     files := [("history.json", "h2")] }]

theorem c2_merge_window_union_witness :
    ((mergeHistory storeTwo).map Prod.fst).Nodup ∧
    (∀ k v, (k, v) ∈ mergeHistory storeTwo ↔
      ∃ e ∈ historyWindow storeTwo, ∃ fn, (fn, v) ∈ e.files ∧ k = e.name ++ "-" ++ fn) ∧
    (historyWindow storeTwo).length = min 3 storeTwo.length ∧
    (∀ e ∈ historyWindow storeTwo, ∀ e2 ∈ storeTwo, e2 ∉ historyWindow storeTwo →
      e2.mtime ≤ e.mtime) ∧
    mergeHistory ([] : List HistoryEntry) = [] :=
  c2_merge_window_union storeTwo 24 (by decide) (by decide) (by decide)

/-- A one-entry store strictly older than the new run. -/
def storeOne : List HistoryEntry :=
  [{ name := "2025-01-01T00-00-00-000Z", mtime := 3, files := [("history.json", "old")] }]

theorem c8_snapshot_behavior_witness :
    saveCurrentRunHistory none "2025-01-02T03:04:05.678Z" 7 storeOne = storeOne ∧
    ({ name := fsSafeTimestamp "2025-01-02T03:04:05.678Z", mtime := 7,
       files := [("history.json", "new")] } : HistoryEntry) ∉ storeOne ∧
    ({ name := fsSafeTimestamp "2025-01-02T03:04:05.678Z", mtime := 7,
       files := [("history.json", "new")] } : HistoryEntry) ∈
      saveCurrentRunHistory (some [("history.json", "new")])
        "2025-01-02T03:04:05.678Z" 7 storeOne ∧
    (∀ e ∈ saveCurrentRunHistory (some [("history.json", "new")])
        "2025-01-02T03:04:05.678Z" 7 storeOne,
      e = ({ name := fsSafeTimestamp "2025-01-02T03:04:05.678Z", mtime := 7,
             files := [("history.json", "new")] } : HistoryEntry) ∨ e ∈ storeOne) ∧
    fsSafeTimestamp "2025-01-02T03:04:05.678Z" = "2025-01-02T03-04-05-678Z" :=
  c8_snapshot_behavior storeOne [("history.json", "new")] "2025-01-02T03:04:05.678Z" 7
    (by decide)

/-- Ten trend records already stored. -/
def trendTen : List TrendEntry :=
  [{ date := "d1", total := 2, failed := 0, duration := 1 },
   { date := "d2", total := 2, failed := 1, duration := 1 },
   { date := "d3", total := 2, failed := 0, duration := 1 },
   { date := "d4", total := 2, failed := 0, duration := 1 },
   { date := "d5", total := 2, failed := 2, duration := 1 },
   { date := "d6", total := 2, failed := 0, duration := 1 },
   { date := "d7", total := 2, failed := 0, duration := 1 },
   { date := "d8", total := 2, failed := 1, duration := 1 },
   { date := "d9", total := 2, failed := 0, duration := 1 },
   { date := "d10", total := 2, failed := 0, duration := 1 }]

/-- The record of the current run. -/
def trendNew : TrendEntry := { date := "d11", total := 2, failed := 0, duration := 1 }

theorem c10_trend_bound_witness :
    (updateTrend trendTen trendNew).length ≤ 10 ∧
    (updateTrend trendTen trendNew).getLast? = some trendNew ∧
    (trendTen.length < 10 → updateTrend trendTen trendNew = trendTen ++ [trendNew]) ∧
    (trendTen.length = 10 → updateTrend trendTen trendNew = trendTen.tail ++ [trendNew]) :=
  c10_trend_bound trendTen trendNew (by decide)
